import Mathlib

/-!
Shallow embedding of the AI-CodeReviewer frontend's result-normalization
layer and the UI handlers around it.

Modelling conventions for the JavaScript source:
* a JS object field that may be `undefined`/`null` is an `Option`;
* `a || d` on a string value is `jsOrStr` (the empty string is falsy);
* `a || d` on a number value is `jsOrNat`/`jsOrInt` (`0` is falsy);
* `x?.f` chains are `Option` matches; a guard `if (obj?.xs?.length)` is
  a match that also tests non-emptiness of the list;
* `forEach(... issues.push(...))` over a sub-list becomes `List.map`
  appended in the order the source pushes;
* the one `axios.post` is modelled by threading an explicit network
  function and recording the requests it was given.
-/

namespace CodeReviewer

/-- JS `v || d` for an optional string value: `undefined`, `null` and the
empty string are falsy. -/
def jsOrStr (v : Option String) (d : String) : String :=
  match v with
  | some s => if s = "" then d else s
  | none => d

/-- JS `v || d` for an optional natural-number value: `undefined`, `null`
and `0` are falsy. -/
def jsOrNat (v : Option Nat) (d : Nat) : Nat :=
  match v with
  | some n => if n = 0 then d else n
  | none => d

/-- JS `v || d` for an optional integer value: `undefined`, `null` and `0`
are falsy. -/
def jsOrInt (v : Option Int) (d : Int) : Int :=
  match v with
  | some n => if n = 0 then d else n
  | none => d

/-! ## The `/analyze` response shape (consumed by `analyzeAll`) -/

/-- One entry of `data.syntax.errors`. -/
structure SyntaxError where
  line : Option Nat
  message : String
deriving DecidableEq

/-- The `data.syntax` sub-object. -/
structure SyntaxResult where
  errors : Option (List SyntaxError)
deriving DecidableEq

/-- One entry of `data.style.local_issues`. -/
structure LocalIssue where
  severity : Option String
  line : Option Nat
  message : String
deriving DecidableEq

/-- One entry of `data.style.ai_review.issues`. -/
structure AIStyleIssue where
  line : Option Nat
  message : String
  suggestion : Option String
deriving DecidableEq

/-- The `data.style.ai_review` sub-object. -/
structure AIReview where
  issues : Option (List AIStyleIssue)
deriving DecidableEq

/-- The `data.style.summary` sub-object (read by the part_001 version). -/
structure StyleSummary where
  qualityScore : Option Int
  qualityScoreLocal : Option Int
  qualityScoreAI : Option Int
deriving DecidableEq

/-- The `data.style` sub-object. -/
structure StyleResult where
  local_issues : Option (List LocalIssue)
  ai_review : Option AIReview
  summary : Option StyleSummary
deriving DecidableEq

/-- One entry of `data.security.security_issues.bandit.results`. -/
structure BanditIssue where
  line_number : Option Nat
  issue_text : String
  issue_cwe : Option String
deriving DecidableEq

/-- The `data.security.security_issues.bandit` sub-object. -/
structure BanditResult where
  results : Option (List BanditIssue)
deriving DecidableEq

/-- The `data.security.security_issues` sub-object. -/
structure SecurityIssues where
  bandit : Option BanditResult
deriving DecidableEq

/-- One entry of `data.security.ai.issues`. -/
structure AISecurityIssue where
  severity : Option String
  line : Option Nat
  message : String
  suggestion : Option String
deriving DecidableEq

/-- The `data.security.ai` sub-object. -/
structure AISecurity where
  issues : Option (List AISecurityIssue)
deriving DecidableEq

/-- The `data.security` sub-object. -/
structure SecurityResult where
  security_issues : Option SecurityIssues
  ai : Option AISecurity
deriving DecidableEq

/-- The `data.quality.analysis` sub-object. -/
structure QualityAnalysis where
  time_complexity : String
  space_complexity : String
deriving DecidableEq

/-- The `data.quality` sub-object. -/
structure QualityResult where
  analysis : Option QualityAnalysis
deriving DecidableEq

/-- One entry of `data.rule.issues`. -/
structure RuleIssue where
  severity : Option String
  line : Option Nat
  message : String
  suggestion : Option String
deriving DecidableEq

/-- The `data.rule` sub-object. -/
structure RuleResult where
  issues : Option (List RuleIssue)
deriving DecidableEq

/-- The `res.data.results` object: each analysis service's sub-result may
be absent. -/
structure Results where
  syn : Option SyntaxResult
  style : Option StyleResult
  security : Option SecurityResult
  quality : Option QualityResult
  rule : Option RuleResult
deriving DecidableEq

/-- The decoded body of a `/analyze` response (`res.data`). -/
structure AnalyzeResponse where
  results : Option Results
deriving DecidableEq

/-- The empty object `{}` that `res.data.results || {}` falls back to. -/
def emptyResults : Results :=
  { syn := none, style := none, security := none, quality := none,
    rule := none }

/-! ## The normalized result shape -/

/-- A normalized finding record.  `severity` and `line` are `Option`
because one re-implementation (part_001) passes backend fields through
without a default, so they can be `undefined` there; the main version
always fills them. -/
structure Issue where
  severity : Option String
  type : String
  line : Option Nat
  message : String
  suggestion : String
deriving DecidableEq

/-- The `raw` record stored for the raw-JSON view. -/
structure RawResults where
  syn : Option SyntaxResult
  style : Option StyleResult
  security : Option SecurityResult
  quality : Option QualityResult
  rule : Option RuleResult
deriving DecidableEq

namespace Api

/-- The `summary` object built by `src/frontend/src/services/api.js`. -/
structure Summary where
  totalIssues : Nat
  critical : Nat
  high : Nat
  medium : Nat
  low : Nat
  securityScore : Int
  qualityScore : Int
deriving DecidableEq

/-- The `{ issues, summary, raw }` record returned by `analyzeAll`. -/
structure AnalyzeResult where
  issues : List Issue
  summary : Summary
  raw : RawResults
deriving DecidableEq

/-- The issues pushed for `data.syntax.errors`
(api.js lines 24-35). -/
def syntaxIssues (data : Results) : List Issue :=
  match data.syn with
  | none => []
  | some s =>
    match s.errors with
    | none => []
    | some errs =>
      if errs.isEmpty then [] else
      errs.map fun err =>
        { severity := some "high", type := "syntax",
          line := some (jsOrNat err.line 0), message := err.message,
          suggestion := "Fix syntax error" }

/-- The issues pushed for `data.style.local_issues`
(api.js lines 37-48). -/
def styleLocalIssues (data : Results) : List Issue :=
  match data.style with
  | none => []
  | some st =>
    match st.local_issues with
    | none => []
    | some is =>
      if is.isEmpty then [] else
      is.map fun i =>
        { severity := some (jsOrStr i.severity "low"), type := "style",
          line := some (jsOrNat i.line 0), message := i.message,
          suggestion := "Follow style guidelines" }

/-- The issues pushed for `data.style.ai_review.issues`
(api.js lines 50-61). -/
def styleAiIssues (data : Results) : List Issue :=
  match data.style with
  | none => []
  | some st =>
    match st.ai_review with
    | none => []
    | some ar =>
      match ar.issues with
      | none => []
      | some is =>
        if is.isEmpty then [] else
        is.map fun i =>
          { severity := some "medium", type := "style",
            line := some (jsOrNat i.line 0), message := i.message,
            suggestion := jsOrStr i.suggestion "Improve code readability" }

/-- The issues pushed for `data.security.security_issues.bandit.results`
(api.js lines 63-74). -/
def banditIssues (data : Results) : List Issue :=
  match data.security with
  | none => []
  | some sec =>
    match sec.security_issues with
    | none => []
    | some si =>
      match si.bandit with
      | none => []
      | some b =>
        match b.results with
        | none => []
        | some rs =>
          if rs.isEmpty then [] else
          rs.map fun r =>
            { severity := some "high", type := "security",
              line := some (jsOrNat r.line_number 0),
              message := r.issue_text,
              suggestion := jsOrStr r.issue_cwe "Fix vulnerability" }

/-- The issues pushed for `data.security.ai.issues`
(api.js lines 76-87). -/
def securityAiIssues (data : Results) : List Issue :=
  match data.security with
  | none => []
  | some sec =>
    match sec.ai with
    | none => []
    | some ai =>
      match ai.issues with
      | none => []
      | some is =>
        if is.isEmpty then [] else
        is.map fun i =>
          { severity := some (jsOrStr i.severity "medium"),
            type := "security", line := some (jsOrNat i.line 0),
            message := i.message,
            suggestion := jsOrStr i.suggestion "Fix security issue" }

/-- The single issue pushed for `data.quality.analysis`
(api.js lines 89-99). -/
def qualityIssues (data : Results) : List Issue :=
  match data.quality with
  | none => []
  | some q =>
    match q.analysis with
    | none => []
    | some a =>
      [{ severity := some "medium", type := "quality", line := some 0,
         message := "Time: " ++ a.time_complexity ++ ", Space: " ++
           a.space_complexity,
         suggestion := "Optimize algorithm" }]

/-- The issues pushed for `data.rule.issues`
(api.js lines 101-112). -/
def ruleIssues (data : Results) : List Issue :=
  match data.rule with
  | none => []
  | some ru =>
    match ru.issues with
    | none => []
    | some is =>
      if is.isEmpty then [] else
      is.map fun r =>
        { severity := some (jsOrStr r.severity "low"), type := "rule",
          line := some (jsOrNat r.line 0), message := r.message,
          suggestion := jsOrStr r.suggestion "Fix rule violation" }

/-- The reshaping performed by `analyzeAll` in
`src/frontend/src/services/api.js` on the decoded `/analyze` response
(everything after the `await axios.post`). -/
def analyzeAll (resp : AnalyzeResponse) : AnalyzeResult :=
  let data := resp.results.getD emptyResults
  let issues :=
    syntaxIssues data ++ styleLocalIssues data ++ styleAiIssues data ++
    banditIssues data ++ securityAiIssues data ++ qualityIssues data ++
    ruleIssues data
  let raw : RawResults :=
    { syn := data.syn, style := data.style,
      security := data.security, quality := data.quality,
      rule := data.rule }
  let summary : Summary :=
    { totalIssues := issues.length,
      critical := (issues.filter fun i => i.severity == some "critical").length,
      high := (issues.filter fun i => i.severity == some "high").length,
      medium := (issues.filter fun i => i.severity == some "medium").length,
      low := (issues.filter fun i => i.severity == some "low").length,
      securityScore :=
        100 - ((issues.filter fun i => i.type == "security").length : Int) * 10,
      qualityScore := 100 - (issues.length : Int) * 5 }
  { issues := issues, summary := summary, raw := raw }

/-- The `analyzeAll` reshaping written in the `Except` monad: it would
signal an error if the reshaping reached a JS error state (an unguarded
field access on `undefined`); every access in the source is guarded, so
no step throws. -/
def analyzeAllE (resp : AnalyzeResponse) : Except String AnalyzeResult := do
  let data := resp.results.getD emptyResults
  let s1 ← pure (syntaxIssues data)
  let s2 ← pure (styleLocalIssues data)
  let s3 ← pure (styleAiIssues data)
  let s4 ← pure (banditIssues data)
  let s5 ← pure (securityAiIssues data)
  let s6 ← pure (qualityIssues data)
  let s7 ← pure (ruleIssues data)
  let issues := s1 ++ s2 ++ s3 ++ s4 ++ s5 ++ s6 ++ s7
  let raw : RawResults :=
    { syn := data.syn, style := data.style,
      security := data.security, quality := data.quality,
      rule := data.rule }
  let summary : Summary :=
    { totalIssues := issues.length,
      critical := (issues.filter fun i => i.severity == some "critical").length,
      high := (issues.filter fun i => i.severity == some "high").length,
      medium := (issues.filter fun i => i.severity == some "medium").length,
      low := (issues.filter fun i => i.severity == some "low").length,
      securityScore :=
        100 - ((issues.filter fun i => i.type == "security").length : Int) * 10,
      qualityScore := 100 - (issues.length : Int) * 5 }
  return { issues := issues, summary := summary, raw := raw }

/-- An HTTP request issued by the service layer. -/
structure Request where
  method : String
  path : String
  code : String
  language : String
deriving DecidableEq

/-- The whole of `analyzeAll` (api.js lines 6-126): one
`axios.post("/analyze", {code, language})` whose decoded body is then
reshaped.  The network is an explicit function from requests to either a
failure or a decoded response body; the list collects every request the
invocation issued. -/
def analyzeAllNet (net : Request → Except String AnalyzeResponse)
    (code language : String) : List Request × Except String AnalyzeResult :=
  let req : Request :=
    { method := "POST", path := "/analyze", code := code,
      language := language }
  match net req with
  | Except.error e => ([req], Except.error e)
  | Except.ok body => ([req], Except.ok (analyzeAll body))

end Api

namespace Part001

/-- The `summary` object built by the `analyzeAll` of
`src/unnamed/part_001` (an older iteration of api.js). -/
structure Summary where
  totalIssues : Nat
  critical : Nat
  high : Nat
  medium : Nat
  low : Nat
  qualityScore : Int
  qualityScoreLocal : Int
  qualityScoreAI : Int
  securityScore : Int
deriving DecidableEq

/-- The `{ issues, summary, raw }` record returned by part_001's
`analyzeAll`. -/
structure AnalyzeResult where
  issues : List Issue
  summary : Summary
  raw : RawResults
deriving DecidableEq

/-- The issues pushed for `data.syntax.errors` (part_001 lines 29-39):
`line` is passed through without a default. -/
def syntaxIssues (data : Results) : List Issue :=
  match data.syn with
  | none => []
  | some s =>
    match s.errors with
    | none => []
    | some errs =>
      if errs.isEmpty then [] else
      errs.map fun err =>
        { severity := some "high", type := "syntax", line := err.line,
          message := err.message, suggestion := "Fix syntax error" }

/-- The issues pushed for `data.style.local_issues` (part_001 lines
44-54): the severity default is `"medium"`, not `"low"`. -/
def styleLocalIssues (data : Results) : List Issue :=
  match data.style with
  | none => []
  | some st =>
    match st.local_issues with
    | none => []
    | some is =>
      if is.isEmpty then [] else
      is.map fun i =>
        { severity := some (jsOrStr i.severity "medium"), type := "style",
          line := i.line, message := i.message,
          suggestion := "Follow code style" }

/-- The issues pushed for `data.style.ai_review.issues`
(part_001 lines 59-69). -/
def styleAiIssues (data : Results) : List Issue :=
  match data.style with
  | none => []
  | some st =>
    match st.ai_review with
    | none => []
    | some ar =>
      match ar.issues with
      | none => []
      | some is =>
        if is.isEmpty then [] else
        is.map fun i =>
          { severity := some "medium", type := "style", line := i.line,
            message := i.message,
            suggestion := jsOrStr i.suggestion "Improve readability" }

/-- The issues pushed for `data.security.security_issues.bandit.results`
(part_001 lines 74-84). -/
def banditIssues (data : Results) : List Issue :=
  match data.security with
  | none => []
  | some sec =>
    match sec.security_issues with
    | none => []
    | some si =>
      match si.bandit with
      | none => []
      | some b =>
        match b.results with
        | none => []
        | some rs =>
          if rs.isEmpty then [] else
          rs.map fun r =>
            { severity := some "high", type := "security",
              line := r.line_number, message := r.issue_text,
              suggestion := jsOrStr r.issue_cwe "Fix security flaw" }

/-- The issues pushed for `data.security.ai.issues`
(part_001 lines 89-99). -/
def securityAiIssues (data : Results) : List Issue :=
  match data.security with
  | none => []
  | some sec =>
    match sec.ai with
    | none => []
    | some ai =>
      match ai.issues with
      | none => []
      | some is =>
        if is.isEmpty then [] else
        is.map fun i =>
          { severity := some (jsOrStr i.severity "medium"),
            type := "security", line := i.line, message := i.message,
            suggestion := jsOrStr i.suggestion "Fix security issue" }

/-- The single issue pushed for `data.quality.analysis`
(part_001 lines 104-113). -/
def qualityIssues (data : Results) : List Issue :=
  match data.quality with
  | none => []
  | some q =>
    match q.analysis with
    | none => []
    | some a =>
      [{ severity := some "medium", type := "quality", line := some 0,
         message := "Time: " ++ a.time_complexity ++ ", Space: " ++
           a.space_complexity,
         suggestion := "Optimize algorithm" }]

/-- The issues pushed for `data.rule.issues` (part_001 lines 118-128):
`severity` and `line` are passed through without defaults. -/
def ruleIssues (data : Results) : List Issue :=
  match data.rule with
  | none => []
  | some ru =>
    match ru.issues with
    | none => []
    | some is =>
      if is.isEmpty then [] else
      is.map fun r =>
        { severity := r.severity, type := "rule", line := r.line,
          message := r.message,
          suggestion := jsOrStr r.suggestion "Fix rule violation" }

/-- The empty `{}` fallback for `data.style?.summary || {}`. -/
def emptyStyleSummary : StyleSummary :=
  { qualityScore := none, qualityScoreLocal := none, qualityScoreAI := none }

/-- The reshaping performed by the `analyzeAll` of `src/unnamed/part_001`
on the decoded `/analyze` response: its summary takes `qualityScore`
from `data.style.summary` instead of deriving it from the issue count,
and counts severity `"style"` as `low`. -/
def analyzeAll (resp : AnalyzeResponse) : AnalyzeResult :=
  let data := resp.results.getD emptyResults
  let issues :=
    syntaxIssues data ++ styleLocalIssues data ++ styleAiIssues data ++
    banditIssues data ++ securityAiIssues data ++ qualityIssues data ++
    ruleIssues data
  let raw : RawResults :=
    { syn := data.syn, style := data.style,
      security := data.security, quality := data.quality,
      rule := data.rule }
  let styleSummary := (data.style.bind StyleResult.summary).getD emptyStyleSummary
  let summary : Summary :=
    { totalIssues := issues.length,
      critical := (issues.filter fun i => i.severity == some "critical").length,
      high := (issues.filter fun i => i.severity == some "high").length,
      medium := (issues.filter fun i => i.severity == some "medium").length,
      low := (issues.filter fun i =>
        i.severity == some "low" || i.severity == some "style").length,
      qualityScore := jsOrInt styleSummary.qualityScore 0,
      qualityScoreLocal := jsOrInt styleSummary.qualityScoreLocal 0,
      qualityScoreAI := jsOrInt styleSummary.qualityScoreAI 0,
      securityScore :=
        100 - ((issues.filter fun i => i.type == "security").length : Int) * 10 }
  { issues := issues, summary := summary, raw := raw }

end Part001

namespace App

/-- The pieces of `App`'s React state that `onReview` touches
(`src/frontend/src/App.jsx`). -/
structure AppState where
  tab : Nat
  code : String
  language : String
  results : Option Api.AnalyzeResult
  loading : Bool
deriving DecidableEq

/-- The observable side effects `onReview` can perform, in order. -/
inductive Effect where
  | analyzeRequest (code language : String)
  | saveHistoryRequest
  | consoleError (label msg : String)
  | consoleWarn (label msg : String)
  | alert (msg : String)
deriving DecidableEq

/-- The `onReview` handler (App.jsx lines 96-118).  `backend` is the
settled behaviour of `analyzeAll(code, language)` for this run;
`saveOutcome` is the outcome of the history-service POST, whose failure
`saveHistory` catches internally (App.jsx lines 87-93) and reports only
with `console.warn`.  Returns the new state and the ordered effects. -/
def onReview (backend : String → String → Except String Api.AnalyzeResult)
    (saveOutcome : Except String Unit) (s : AppState) :
    AppState × List Effect :=
  let s1 := { s with loading := true }
  match backend s.code s.language with
  | Except.ok res =>
    let s2 := { s1 with results := some res }
    let saveEffects :=
      match saveOutcome with
      | Except.ok _ => [Effect.saveHistoryRequest]
      | Except.error err =>
        [Effect.saveHistoryRequest, Effect.consoleWarn "History save failed:" err]
    let s3 := { s2 with tab := 1 }
    ({ s3 with loading := false },
      Effect.analyzeRequest s.code s.language :: saveEffects)
  | Except.error e =>
    ({ s1 with loading := false },
      [Effect.analyzeRequest s.code s.language,
       Effect.consoleError "Review failed:" e,
       Effect.alert "Analysis failed. Check backend logs."])

end App

namespace IssuesPanel

/-- The fields of an issue object that `isLowValue` reads
(`src/frontend/src/components/IssuesPanel.jsx`); both may be absent on a
raw backend object.  Other fields of the object cannot affect the
kept/minor partition. -/
structure PanelIssue where
  code : Option String
  message : Option String
deriving DecidableEq

/-- `LOW_VALUE_CODES` (IssuesPanel.jsx lines 45-62). -/
def LOW_VALUE_CODES : List String :=
  ["C0114", "C0115", "C0116", "C0304", "C0303",
   "W291", "W292", "W293", "E501", "E203", "E231", "E302", "W503"]

/-- `LOW_VALUE_KEYWORDS` (IssuesPanel.jsx lines 64-73). -/
def LOW_VALUE_KEYWORDS : List String :=
  ["missing module docstring", "no newline at end of file",
   "trailing whitespace", "line too long", "blank line", "whitespace",
   "expected 2 blank lines", "whitespace before"]

/-- JS `msg.includes(k)`: `k` occurs as a substring of `msg` exactly when
splitting `msg` on `k` yields more than one piece (the empty pattern is
always included). -/
def strIncludes (msg k : String) : Bool :=
  if k = "" then true else (msg.splitOn k).length > 1

/-- `isLowValue` (IssuesPanel.jsx lines 75-81): a nullish argument is not
low-value; otherwise match the code against `LOW_VALUE_CODES` and the
lower-cased message against `LOW_VALUE_KEYWORDS`. -/
def isLowValue (issue : Option PanelIssue) : Bool :=
  match issue with
  | none => false
  | some i =>
    let code := (jsOrStr i.code "").toUpper
    if code != "" && LOW_VALUE_CODES.contains code then true
    else
      let msg := (jsOrStr i.message "").toLower
      LOW_VALUE_KEYWORDS.any fun k => strIncludes msg k

/-- The partition of `results.issues` into `keptIssues` and `minorIssues`
(IssuesPanel.jsx lines 274-285): a `forEach` that pushes each element
onto `minor` when `isLowValue` holds and onto `kept` otherwise. -/
def partitionIssues (issues : List (Option PanelIssue)) :
    List (Option PanelIssue) × List (Option PanelIssue) :=
  issues.foldl
    (fun acc iss =>
      if isLowValue iss then (acc.1, acc.2 ++ [iss])
      else (acc.1 ++ [iss], acc.2))
    ([], [])

end IssuesPanel

/-! ## Concrete example inputs -/

/-- A style sub-object with one local lint issue that carries no
`severity` field. -/
def sampleStyle : StyleResult :=
  { local_issues := some [{ severity := none, line := some 1, message := "x" }],
    ai_review := none, summary := none }

/-- A well-formed response whose only finding is a local style issue
without a severity. -/
def sampleLocalIssueResponse : AnalyzeResponse :=
  { results := some { emptyResults with style := some sampleStyle } }

/-- A style sub-object whose AI review issue omits every optional
field. -/
def defaultedAiReview : AIReview :=
  { issues := some [{ line := none, message := "a", suggestion := none }] }

/-- A style sub-object whose local and AI issues omit every optional
field. -/
def defaultedStyle : StyleResult :=
  { local_issues := some [{ severity := none, line := none, message := "l" }],
    ai_review := some defaultedAiReview,
    summary := none }

/-- A bandit result whose single finding omits every optional field. -/
def defaultedBandit : BanditResult :=
  { results := some [{ line_number := none, issue_text := "b", issue_cwe := none }] }

/-- An AI security sub-object whose single finding omits every optional
field. -/
def defaultedSecurityAi : AISecurity :=
  { issues := some [{ severity := none, line := none, message := "g", suggestion := none }] }

/-- A security sub-object combining the bandit and AI findings above. -/
def defaultedSecurity : SecurityResult :=
  { security_issues := some { bandit := some defaultedBandit },
    ai := some defaultedSecurityAi }

/-- A results object with one finding from every service, each omitting
all of its optional fields, so every default is exercised. -/
def defaultedResults : Results :=
  { syn := some { errors := some [{ line := none, message := "s" }] },
    style := some defaultedStyle,
    security := some defaultedSecurity,
    quality := some { analysis := some { time_complexity := "O(n)", space_complexity := "O(1)" } },
    rule := some { issues := some [{ severity := none, line := none, message := "r", suggestion := none }] } }

/-- A well-formed response exercising every per-source default. -/
def defaultedResponse : AnalyzeResponse :=
  { results := some defaultedResults }

/-- The normalized record api.js produces for the defaulted syntax
error. -/
def syntaxDefaultIssue : Issue :=
  { severity := some "high", type := "syntax", line := some 0,
    message := "s", suggestion := "Fix syntax error" }

/-- A security sub-object carrying eleven AI security findings. -/
def elevenSecurity : SecurityResult :=
  { security_issues := none,
    ai := some { issues := some (List.replicate 11
      { severity := none, line := none, message := "m", suggestion := none }) } }

/-- A well-formed response with eleven security issues (more than ten),
driving `securityScore` below zero. -/
def elevenSecurityResponse : AnalyzeResponse :=
  { results := some { emptyResults with security := some elevenSecurity } }

/-- A rule sub-object carrying twenty-one findings. -/
def twentyOneRules : RuleResult :=
  { issues := some (List.replicate 21
      { severity := none, line := none, message := "m", suggestion := none }) }

/-- A well-formed response with twenty-one issues (more than twenty),
driving `qualityScore` below zero. -/
def twentyOneRuleResponse : AnalyzeResponse :=
  { results := some { emptyResults with rule := some twentyOneRules } }

/-- A rule sub-object whose only finding carries the backend severity
`"warning"`, outside the four counted buckets. -/
def warningRule : RuleResult :=
  { issues := some [{ severity := some "warning", line := none, message := "r", suggestion := none }] }

/-- The response wrapping `warningRule`. -/
def warningRuleResponse : AnalyzeResponse :=
  { results := some { emptyResults with rule := some warningRule } }

/-- A backend whose `/analyze` promise always rejects. -/
def errorBackend : String → String → Except String Api.AnalyzeResult :=
  fun _ _ => Except.error "boom"

/-- An app state before any review has run. -/
def initialState : App.AppState :=
  { tab := 0, code := "c", language := "python", results := none, loading := false }

/-! ## Helper lemmas -/

/-- The four severity buckets are pairwise exclusive for any severity
value. -/
lemma severity_bucket_le_one (o : Option String) :
    (if o == some "critical" then 1 else 0) + (if o == some "high" then 1 else 0) +
    (if o == some "medium" then 1 else 0) + (if o == some "low" then 1 else 0) ≤ 1 := by
  rcases o with _ | s
  · simp
  · by_cases h1 : s = "critical" <;> by_cases h2 : s = "high" <;>
    by_cases h3 : s = "medium" <;> by_cases h4 : s = "low" <;>
    simp_all

/-- Counting the four exclusive severity buckets never exceeds the list
length. -/
lemma four_filter_le (l : List Issue) :
    (l.filter fun i => i.severity == some "critical").length +
    (l.filter fun i => i.severity == some "high").length +
    (l.filter fun i => i.severity == some "medium").length +
    (l.filter fun i => i.severity == some "low").length ≤ l.length := by
  induction l with
  | nil => simp
  | cons a t ih =>
    simp only [List.filter_cons, List.length_cons]
    by_cases h1 : a.severity == some "critical" <;>
    by_cases h2 : a.severity == some "high" <;>
    by_cases h3 : a.severity == some "medium" <;>
    by_cases h4 : a.severity == some "low" <;>
    simp_all <;> omega

/-- Every syntax issue built by api.js has type `"syntax"` and a present
severity and line. -/
lemma syntaxIssues_fields (data : Results) :
    ∀ i ∈ Api.syntaxIssues data,
      i.type = "syntax" ∧ i.severity.isSome ∧ i.line.isSome := by
  intro i hi
  unfold Api.syntaxIssues at hi
  split at hi
  · simp at hi
  · split at hi
    · simp at hi
    · split at hi
      · simp at hi
      · rcases List.mem_map.mp hi with ⟨x, _, rfl⟩
        exact ⟨rfl, rfl, rfl⟩

/-- Every local style issue built by api.js has type `"style"` and a
present severity and line. -/
lemma styleLocalIssues_fields (data : Results) :
    ∀ i ∈ Api.styleLocalIssues data,
      i.type = "style" ∧ i.severity.isSome ∧ i.line.isSome := by
  intro i hi
  unfold Api.styleLocalIssues at hi
  split at hi
  · simp at hi
  · split at hi
    · simp at hi
    · split at hi
      · simp at hi
      · rcases List.mem_map.mp hi with ⟨x, _, rfl⟩
        exact ⟨rfl, rfl, rfl⟩

/-- Every AI style issue built by api.js has type `"style"` and a
present severity and line. -/
lemma styleAiIssues_fields (data : Results) :
    ∀ i ∈ Api.styleAiIssues data,
      i.type = "style" ∧ i.severity.isSome ∧ i.line.isSome := by
  intro i hi
  unfold Api.styleAiIssues at hi
  split at hi
  · simp at hi
  · split at hi
    · simp at hi
    · split at hi
      · simp at hi
      · split at hi
        · simp at hi
        · rcases List.mem_map.mp hi with ⟨x, _, rfl⟩
          exact ⟨rfl, rfl, rfl⟩

/-- Every bandit issue built by api.js has type `"security"` and a
present severity and line. -/
lemma banditIssues_fields (data : Results) :
    ∀ i ∈ Api.banditIssues data,
      i.type = "security" ∧ i.severity.isSome ∧ i.line.isSome := by
  intro i hi
  unfold Api.banditIssues at hi
  split at hi
  · simp at hi
  · split at hi
    · simp at hi
    · split at hi
      · simp at hi
      · split at hi
        · simp at hi
        · split at hi
          · simp at hi
          · rcases List.mem_map.mp hi with ⟨x, _, rfl⟩
            exact ⟨rfl, rfl, rfl⟩

/-- Every AI security issue built by api.js has type `"security"` and a
present severity and line. -/
lemma securityAiIssues_fields (data : Results) :
    ∀ i ∈ Api.securityAiIssues data,
      i.type = "security" ∧ i.severity.isSome ∧ i.line.isSome := by
  intro i hi
  unfold Api.securityAiIssues at hi
  split at hi
  · simp at hi
  · split at hi
    · simp at hi
    · split at hi
      · simp at hi
      · split at hi
        · simp at hi
        · rcases List.mem_map.mp hi with ⟨x, _, rfl⟩
          exact ⟨rfl, rfl, rfl⟩

/-- The quality issue built by api.js has type `"quality"` and a present
severity and line. -/
lemma qualityIssues_fields (data : Results) :
    ∀ i ∈ Api.qualityIssues data,
      i.type = "quality" ∧ i.severity.isSome ∧ i.line.isSome := by
  intro i hi
  unfold Api.qualityIssues at hi
  split at hi
  · simp at hi
  · split at hi
    · simp at hi
    · rcases List.mem_singleton.mp hi with rfl
      exact ⟨rfl, rfl, rfl⟩

/-- Every rule issue built by api.js has type `"rule"` and a present
severity and line. -/
lemma ruleIssues_fields (data : Results) :
    ∀ i ∈ Api.ruleIssues data,
      i.type = "rule" ∧ i.severity.isSome ∧ i.line.isSome := by
  intro i hi
  unfold Api.ruleIssues at hi
  split at hi
  · simp at hi
  · split at hi
    · simp at hi
    · split at hi
      · simp at hi
      · rcases List.mem_map.mp hi with ⟨x, _, rfl⟩
        exact ⟨rfl, rfl, rfl⟩

/-- The `forEach` partition loop, generalized over the accumulators:
kept and minor issues are the order-preserving filters of the input. -/
lemma partitionIssues_go (issues : List (Option IssuesPanel.PanelIssue))
    (k m : List (Option IssuesPanel.PanelIssue)) :
    issues.foldl
      (fun acc iss =>
        if IssuesPanel.isLowValue iss then (acc.1, acc.2 ++ [iss])
        else (acc.1 ++ [iss], acc.2))
      (k, m) =
    (k ++ issues.filter (fun i => !(IssuesPanel.isLowValue i)),
     m ++ issues.filter (fun i => IssuesPanel.isLowValue i)) := by
  induction issues generalizing k m with
  | nil => simp
  | cons a t ih =>
    simp only [List.foldl_cons, List.filter_cons]
    by_cases h : IssuesPanel.isLowValue a <;> simp [h, ih]

/-- The kept and minor filters of a list have complementary lengths. -/
lemma kept_minor_length (l : List (Option IssuesPanel.PanelIssue)) :
    (l.filter fun i => !(IssuesPanel.isLowValue i)).length +
      (l.filter fun i => IssuesPanel.isLowValue i).length = l.length := by
  induction l with
  | nil => simp
  | cons a t ih =>
    simp only [List.filter_cons]
    by_cases h : IssuesPanel.isLowValue a <;> simp [h] <;> omega

/-! ## Claim theorems -/

/-- C1: for every well-formed `/analyze` response, `analyzeAll`'s summary
is fully derived from the flattened issue list: `totalIssues` is its
length, the four severity fields count the issues with that exact
severity, `securityScore` is `100 - 10 *` the number of security-typed
issues, and `qualityScore` is `100 - 5 *` the issue count. -/
theorem analyzeAll_summary_derived (resp : AnalyzeResponse) :
    (Api.analyzeAll resp).summary.totalIssues = (Api.analyzeAll resp).issues.length ∧
    (Api.analyzeAll resp).summary.critical =
      (Api.analyzeAll resp).issues.countP (fun i => i.severity == some "critical") ∧
    (Api.analyzeAll resp).summary.high =
      (Api.analyzeAll resp).issues.countP (fun i => i.severity == some "high") ∧
    (Api.analyzeAll resp).summary.medium =
      (Api.analyzeAll resp).issues.countP (fun i => i.severity == some "medium") ∧
    (Api.analyzeAll resp).summary.low =
      (Api.analyzeAll resp).issues.countP (fun i => i.severity == some "low") ∧
    (Api.analyzeAll resp).summary.securityScore =
      100 - ((Api.analyzeAll resp).issues.countP (fun i => i.type == "security") : Int) * 10 ∧
    (Api.analyzeAll resp).summary.qualityScore =
      100 - ((Api.analyzeAll resp).issues.length : Int) * 5 := by
  refine ⟨rfl, ?_, ?_, ?_, ?_, ?_, rfl⟩ <;>
    · simp only [List.countP_eq_length_filter]
      rfl

/-- C2: the normalization layer is re-implemented divergently: on a
well-formed response carrying a style `local_issue` without a severity,
the `analyzeAll` of api.js and the `analyzeAll` of part_001 return
different issue lists (severity defaults `"low"` vs `"medium"`) and
different `qualityScore`s (`100 - 5 * totalIssues` vs the style
service's `summary.qualityScore || 0`). -/
theorem analyzeAll_versions_diverge :
    ∃ resp : AnalyzeResponse,
      (Api.analyzeAll resp).issues ≠ (Part001.analyzeAll resp).issues ∧
      (Api.analyzeAll resp).summary.qualityScore ≠
        (Part001.analyzeAll resp).summary.qualityScore :=
  ⟨sampleLocalIssueResponse, by decide⟩

/-- C3: the reshaping is total for well-formed inputs: on every response
(with `results` absent or its sub-objects of the expected shapes) the
`Except`-instrumented reshaping reaches no error state and returns the
`{issues, summary, raw}` record. -/
theorem analyzeAll_total (resp : AnalyzeResponse) :
    Api.analyzeAllE resp = Except.ok (Api.analyzeAll resp) := rfl

/-- C4: the reshaping is deterministic: equal response bodies yield equal
`{issues, summary, raw}` records. -/
theorem analyzeAll_deterministic (r1 r2 : AnalyzeResponse) (h : r1 = r2) :
    Api.analyzeAll r1 = Api.analyzeAll r2 := by
  rw [h]

/-- Witness for C4 at a concrete response. -/
theorem analyzeAll_deterministic_witness :
    sampleLocalIssueResponse = sampleLocalIssueResponse ∧
    Api.analyzeAll sampleLocalIssueResponse = Api.analyzeAll sampleLocalIssueResponse :=
  ⟨rfl, analyzeAll_deterministic sampleLocalIssueResponse sampleLocalIssueResponse rfl⟩

/-- C5: when the analysis request rejects, `onReview` leaves `results`
and the selected tab unchanged, resets `loading` to `false`, and its
effects are exactly one analysis request, one console error and one
user-facing alert — no retry. -/
theorem onReview_error_path
    (backend : String → String → Except String Api.AnalyzeResult)
    (saveOutcome : Except String Unit) (s : App.AppState) (e : String)
    (h : backend s.code s.language = Except.error e) :
    (App.onReview backend saveOutcome s).1.results = s.results ∧
    (App.onReview backend saveOutcome s).1.tab = s.tab ∧
    (App.onReview backend saveOutcome s).1.loading = false ∧
    (App.onReview backend saveOutcome s).2 =
      [App.Effect.analyzeRequest s.code s.language,
       App.Effect.consoleError "Review failed:" e,
       App.Effect.alert "Analysis failed. Check backend logs."] := by
  simp [App.onReview, h]

/-- Witness for C5 with an always-failing backend. -/
theorem onReview_error_path_witness :
    errorBackend initialState.code initialState.language = Except.error "boom" ∧
    ((App.onReview errorBackend (Except.ok ()) initialState).1.results = initialState.results ∧
     (App.onReview errorBackend (Except.ok ()) initialState).1.tab = initialState.tab ∧
     (App.onReview errorBackend (Except.ok ()) initialState).1.loading = false ∧
     (App.onReview errorBackend (Except.ok ()) initialState).2 =
      [App.Effect.analyzeRequest initialState.code initialState.language,
       App.Effect.consoleError "Review failed:" "boom",
       App.Effect.alert "Analysis failed. Check backend logs."]) :=
  ⟨rfl, onReview_error_path errorBackend (Except.ok ()) initialState "boom" rfl⟩

/-- C6: every issue produced by api.js's `analyzeAll` has a type among
the five services and a present (defaulted) severity and line; on a
response where every optional backend field is absent, the produced
records carry exactly the per-source defaults (line `0`, severities
`"high"/"low"/"medium"/"high"/"medium"/"medium"/"low"`, and the fixed
suggestion strings). -/
theorem issue_record_invariant :
    (∀ (resp : AnalyzeResponse) (i : Issue), i ∈ (Api.analyzeAll resp).issues →
      (i.type = "syntax" ∨ i.type = "style" ∨ i.type = "security" ∨
       i.type = "quality" ∨ i.type = "rule") ∧
      i.severity.isSome ∧ i.line.isSome) ∧
    (Api.analyzeAll defaultedResponse).issues =
      [{ severity := some "high", type := "syntax", line := some 0,
         message := "s", suggestion := "Fix syntax error" },
       { severity := some "low", type := "style", line := some 0,
         message := "l", suggestion := "Follow style guidelines" },
       { severity := some "medium", type := "style", line := some 0,
         message := "a", suggestion := "Improve code readability" },
       { severity := some "high", type := "security", line := some 0,
         message := "b", suggestion := "Fix vulnerability" },
       { severity := some "medium", type := "security", line := some 0,
         message := "g", suggestion := "Fix security issue" },
       { severity := some "medium", type := "quality", line := some 0,
         message := "Time: O(n), Space: O(1)", suggestion := "Optimize algorithm" },
       { severity := some "low", type := "rule", line := some 0,
         message := "r", suggestion := "Fix rule violation" }] := by
  constructor
  · intro resp i hi
    have hi' : i ∈ ((((((Api.syntaxIssues (resp.results.getD emptyResults) ++
        Api.styleLocalIssues (resp.results.getD emptyResults)) ++
        Api.styleAiIssues (resp.results.getD emptyResults)) ++
        Api.banditIssues (resp.results.getD emptyResults)) ++
        Api.securityAiIssues (resp.results.getD emptyResults)) ++
        Api.qualityIssues (resp.results.getD emptyResults)) ++
        Api.ruleIssues (resp.results.getD emptyResults)) := hi
    simp only [List.mem_append] at hi'
    rcases hi' with ((((((h | h) | h) | h) | h) | h) | h)
    · obtain ⟨ht, hs, hl⟩ := syntaxIssues_fields _ _ h
      exact ⟨Or.inl ht, hs, hl⟩
    · obtain ⟨ht, hs, hl⟩ := styleLocalIssues_fields _ _ h
      exact ⟨Or.inr (Or.inl ht), hs, hl⟩
    · obtain ⟨ht, hs, hl⟩ := styleAiIssues_fields _ _ h
      exact ⟨Or.inr (Or.inl ht), hs, hl⟩
    · obtain ⟨ht, hs, hl⟩ := banditIssues_fields _ _ h
      exact ⟨Or.inr (Or.inr (Or.inl ht)), hs, hl⟩
    · obtain ⟨ht, hs, hl⟩ := securityAiIssues_fields _ _ h
      exact ⟨Or.inr (Or.inr (Or.inl ht)), hs, hl⟩
    · obtain ⟨ht, hs, hl⟩ := qualityIssues_fields _ _ h
      exact ⟨Or.inr (Or.inr (Or.inr (Or.inl ht))), hs, hl⟩
    · obtain ⟨ht, hs, hl⟩ := ruleIssues_fields _ _ h
      exact ⟨Or.inr (Or.inr (Or.inr (Or.inr ht))), hs, hl⟩
  · decide

/-- Witness for C6 at the defaulted syntax issue of the defaulted
response. -/
theorem issue_record_invariant_witness :
    (syntaxDefaultIssue.type = "syntax" ∨ syntaxDefaultIssue.type = "style" ∨
     syntaxDefaultIssue.type = "security" ∨ syntaxDefaultIssue.type = "quality" ∨
     syntaxDefaultIssue.type = "rule") ∧
    syntaxDefaultIssue.severity.isSome ∧ syntaxDefaultIssue.line.isSome :=
  issue_record_invariant.1 defaultedResponse syntaxDefaultIssue (by decide)

/-- C7: an invocation of `analyzeAll` performs exactly one network
request — a POST to `/analyze` with body `{code, language}` — whatever
the network does. -/
theorem analyzeAll_single_request
    (net : Api.Request → Except String AnalyzeResponse)
    (code language : String) :
    (Api.analyzeAllNet net code language).1 =
      [{ method := "POST", path := "/analyze", code := code, language := language }] ∧
    (Api.analyzeAllNet net code language).1.length = 1 := by
  cases hn : net { method := "POST", path := "/analyze", code := code, language := language } with
  | error e => simp [Api.analyzeAllNet, hn]
  | ok b => simp [Api.analyzeAllNet, hn]

/-- C8: the four severity buckets need not partition the issue list:
their sum never exceeds `totalIssues`, and on a response whose only
finding carries the pass-through severity `"warning"` the sum is
strictly smaller. -/
theorem severity_buckets_bound :
    (∀ resp : AnalyzeResponse,
      (Api.analyzeAll resp).summary.critical + (Api.analyzeAll resp).summary.high +
      (Api.analyzeAll resp).summary.medium + (Api.analyzeAll resp).summary.low ≤
      (Api.analyzeAll resp).summary.totalIssues) ∧
    (Api.analyzeAll warningRuleResponse).summary.critical +
      (Api.analyzeAll warningRuleResponse).summary.high +
      (Api.analyzeAll warningRuleResponse).summary.medium +
      (Api.analyzeAll warningRuleResponse).summary.low <
      (Api.analyzeAll warningRuleResponse).summary.totalIssues := by
  constructor
  · intro resp
    exact four_filter_le (Api.analyzeAll resp).issues
  · decide

/-- C9: the scores are exact integer arithmetic, not clamped to 0..100:
`securityScore` drops ten per security issue and `qualityScore` five per
issue, so eleven security issues give a negative `securityScore` and
twenty-one issues a negative `qualityScore`. -/
theorem scores_not_clamped :
    (∀ resp : AnalyzeResponse,
      (Api.analyzeAll resp).summary.securityScore =
        100 - ((Api.analyzeAll resp).issues.countP (fun i => i.type == "security") : Int) * 10 ∧
      (Api.analyzeAll resp).summary.qualityScore =
        100 - ((Api.analyzeAll resp).issues.length : Int) * 5) ∧
    (Api.analyzeAll elevenSecurityResponse).summary.securityScore < 0 ∧
    (Api.analyzeAll twentyOneRuleResponse).summary.qualityScore < 0 := by
  refine ⟨fun resp => ⟨?_, rfl⟩, by decide, by decide⟩
  simp only [List.countP_eq_length_filter]
  rfl

/-- C10: the low-value filter partitions `results.issues`: the kept and
minor lists are the order-preserving filters by `isLowValue`, and their
lengths sum to the input length, so each element lands in exactly one
list. -/
theorem issuesPanel_partition (issues : List (Option IssuesPanel.PanelIssue)) :
    (IssuesPanel.partitionIssues issues).1 =
      issues.filter (fun i => !(IssuesPanel.isLowValue i)) ∧
    (IssuesPanel.partitionIssues issues).2 =
      issues.filter (fun i => IssuesPanel.isLowValue i) ∧
    (IssuesPanel.partitionIssues issues).1.length +
      (IssuesPanel.partitionIssues issues).2.length = issues.length := by
  have h := partitionIssues_go issues [] []
  have h1 : (IssuesPanel.partitionIssues issues).1 =
      issues.filter (fun i => !(IssuesPanel.isLowValue i)) := by
    unfold IssuesPanel.partitionIssues
    rw [h]
    simp
  have h2 : (IssuesPanel.partitionIssues issues).2 =
      issues.filter (fun i => IssuesPanel.isLowValue i) := by
    unfold IssuesPanel.partitionIssues
    rw [h]
    simp
  refine ⟨h1, h2, ?_⟩
  rw [h1, h2]
  exact kept_minor_length issues

end CodeReviewer
